import Mathlib

/-!
# Verification of the physics-visualiser simulation engine

Shallow embedding of the canonical physics engine
(`src/unnamed/part_002`, near-duplicate of
`src/frontend/src/utils/physicsEngine.ts`) of the
`physics-visualiser` repository, together with proofs about the claims
of its specification.

Modelling conventions:

* JavaScript numbers are modelled as exact rationals (`ℚ`).  The
  engine's arithmetic (`+`, `-`, `*`, `/`, `Math.abs`, `Math.sign`,
  `Math.max`, numeric literals such as `0.02`) is exact rational
  arithmetic in this embedding.
* The transcendental / irrational primitives `Math.sin`, `Math.cos`,
  `Math.sqrt` and the constant `Math.PI` are environment-provided
  opaque approximations; we model them as an explicit oracle parameter
  (structure `JsMath`), so every theorem quantifies over the oracle
  unless a claim pins down concrete values.
* Optional scenario parameters (keys that may be absent at runtime,
  which the engine tests with `!== undefined` or defaults with `||`)
  are modelled as `Option ℚ`; the JavaScript `x || d` idiom (which
  also replaces an explicit `0`, since `0` is falsy) is `jsOr`.
* `while` loops become fuel-indexed structural recursions; the fuel
  (501) strictly dominates the loop trip counts (at most 500
  iterations of a `0.02`-step loop bounded by 10 simulated seconds),
  which is proved rather than assumed (see the termination theorems).
-/

set_option autoImplicit false

namespace PhysicsVisualiser

/-- Oracle for the JavaScript `Math` primitives used by the engine.
`sin`, `cos`, `sqrt` stand for `Math.sin`, `Math.cos`, `Math.sqrt`
and `pi` for `Math.PI`. -/
structure JsMath where
  sin : ℚ → ℚ
  cos : ℚ → ℚ
  sqrt : ℚ → ℚ
  pi : ℚ

/-- JavaScript `Math.sign` (on non-NaN numbers). -/
def jsSign (x : ℚ) : ℚ :=
  if 0 < x then 1 else if x < 0 then -1 else 0

/-- JavaScript `o || d` on an optional numeric parameter: an absent
value and the falsy value `0` are both replaced by the default `d`. -/
def jsOr (o : Option ℚ) (d : ℚ) : ℚ :=
  match o with
  | none => d
  | some v => if v = 0 then d else v

/-- Reading of an optional numeric parameter without a default
(the source reads `params.angle` and `params.initialVelocity` bare).
Per the repository's own interface declaration
(`frontend/src/pages/Home.tsx`, `SimulationParameters`) these two keys
are required numbers, so the `none` case is unreachable for typed
callers; we map it to `0`.  (In untyped JavaScript an absent key would
propagate NaN; no claim in scope depends on that case.) -/
def numOr0 (o : Option ℚ) : ℚ := o.getD 0

/-- One object of a `PhysicsProblem`; the engine only reads `type`. -/
structure PhysicsObject where
  type : String
deriving DecidableEq

/-- The slice of `PhysicsProblem` the engine reads
(`problem.objects[0]?.type`). -/
structure PhysicsProblem where
  objects : List PhysicsObject
deriving DecidableEq

/-- The flat numeric parameter mapping `SimulationParameters`.  Every
key the engine dereferences is listed; all are optional (`Option ℚ`),
matching the engine's defensive `|| default` / `!== undefined`
treatment. -/
structure SimulationParameters where
  initialVelocity : Option ℚ := none
  angle : Option ℚ := none
  gravity : Option ℚ := none
  mass : Option ℚ := none
  mass2 : Option ℚ := none
  length : Option ℚ := none
  initialAngle : Option ℚ := none
  initialHeight : Option ℚ := none
  inclineAngle : Option ℚ := none
  frictionCoefficient : Option ℚ := none
  frictionCoefficient2 : Option ℚ := none
  staticFriction : Option ℚ := none
  kineticFriction : Option ℚ := none
  appliedForce : Option ℚ := none
  direction : Option ℚ := none
deriving DecidableEq

/-- One produced sample (`GraphDataPoint`). -/
structure GraphDataPoint where
  time : ℚ
  positionX : ℚ
  positionY : ℚ
  velocityX : ℚ
  velocityY : ℚ
  accelerationX : ℚ
  accelerationY : ℚ
  kineticEnergy : ℚ
  potentialEnergy : ℚ
  totalEnergy : ℚ
deriving DecidableEq

/-- The engine's `SimulationType` string union. -/
inductive SimulationType where
  | projectile
  | inclineFriction
  | frictionHorizontal
  | inclinePulley
  | pendulum
  | conicalPendulum
  | verticalProjectile
  | freeFall
  | uniformAcceleration
  | blockOnBlock
deriving DecidableEq

/-- Embedding of `getSimulationType` (src/unnamed/part_002, lines
21-62): first-match classification of the motion model from
`problem.objects[0]?.type` and the present parameter keys. -/
def getSimulationType (problem : PhysicsProblem) (params : SimulationParameters) :
    SimulationType :=
  let objectType : Option String := (problem.objects.head?).map PhysicsObject.type
  if objectType = some "pendulum" then
    if params.angle ≠ none ∧ params.length ≠ none then .conicalPendulum
    else .pendulum
  else if params.inclineAngle ≠ none then
    if params.mass2 ≠ none then .inclinePulley
    else .inclineFriction
  else if params.mass2 ≠ none ∧ params.appliedForce ≠ none then .blockOnBlock
  else if params.appliedForce ≠ none then .frictionHorizontal
  else if params.angle = some 90 then .verticalProjectile
  else if params.angle = some 270 ∧ params.initialVelocity = some 0 then .freeFall
  else if params.angle = some 0 ∨ params.angle = some 180 then .uniformAcceleration
  else .projectile

/-- Per-tick acceleration `(ax, ay)` of `generateKinematicsData`
(src/unnamed/part_002, lines 114-121), factored out of the loop body:
`(0, -g)` in the projectile case, re-projected along the launch angle
in the 1-D uniform-acceleration case. -/
def kinAccel (O : JsMath) (g angleRad : ℚ) (isUA : Bool) : ℚ × ℚ :=
  if isUA then (g * O.cos angleRad, g * O.sin angleRad) else (0, -g)

/-- Loop of `generateKinematicsData` (src/unnamed/part_002, lines
107-153), fuel-indexed.  `k` counts the samples already pushed (the
source's `data.length`); state is `(vx, vy, x, y, t)`.  The loop guard
is `t < maxTime && y >= -100`; after pushing a sample the source
breaks when `y < 0 && data.length > 1`. -/
def kinLoop (O : JsMath) (g dt mass maxTime angleRad : ℚ) (isUA : Bool) :
    ℕ → ℕ → ℚ → ℚ → ℚ → ℚ → ℚ → List GraphDataPoint
  | 0, _, _, _, _, _, _ => []
  | fuel + 1, k, vx, vy, x, y, t =>
    if t < maxTime ∧ -100 ≤ y then
      let ax := (kinAccel O g angleRad isUA).1
      let ay := (kinAccel O g angleRad isUA).2
      let vx2 := vx + ax * dt
      let vy2 := vy + ay * dt
      let x2 := x + vx2 * dt
      let y2 := y + vy2 * dt
      let speed := O.sqrt (vx2 * vx2 + vy2 * vy2)
      let ke := 0.5 * mass * speed * speed
      let pe := mass * g * max 0 y2
      let pt : GraphDataPoint :=
        { time := t, positionX := x2, positionY := y2,
          velocityX := vx2, velocityY := vy2,
          accelerationX := ax, accelerationY := ay,
          kineticEnergy := ke, potentialEnergy := pe,
          totalEnergy := ke + pe }
      pt :: (if y2 < 0 ∧ 1 ≤ k then []
             else kinLoop O g dt mass maxTime angleRad isUA fuel (k + 1) vx2 vy2 x2 y2 (t + dt))
    else []

/-- Embedding of `generateKinematicsData` (src/unnamed/part_002, lines
94-156): semi-implicit Euler projectile / vertical-throw / free-fall /
uniform-acceleration kinematics. -/
def generateKinematicsData (O : JsMath) (params : SimulationParameters) :
    List GraphDataPoint :=
  let g := jsOr params.gravity 9.8
  let dt : ℚ := 0.02
  let angleRad := numOr0 params.angle * O.pi / 180
  let vx0 := numOr0 params.initialVelocity * O.cos angleRad
  let vy0 := numOr0 params.initialVelocity * O.sin angleRad
  let y0 := jsOr params.initialHeight 0
  let maxTime : ℚ := 10
  let isUniformAccel := params.angle = some 0 ∨ params.angle = some 180
  kinLoop O g dt (jsOr params.mass 1) maxTime angleRad (decide isUniformAccel)
    501 0 vx0 vy0 0 y0 0

/-- Loop of `generatePendulumData` (src/unnamed/part_002, lines
174-211); state is `(omega, theta, t)`. -/
def pendLoop (O : JsMath) (g len mass dt maxTime : ℚ) :
    ℕ → ℚ → ℚ → ℚ → List GraphDataPoint
  | 0, _, _, _ => []
  | fuel + 1, omega, theta, t =>
    if t < maxTime then
      let alpha := -(g / len) * O.sin theta
      let omega2 := omega + alpha * dt
      let theta2 := theta + omega2 * dt
      let x := len * O.sin theta2
      let y := -len * O.cos theta2
      let vx := len * omega2 * O.cos theta2
      let vy := len * omega2 * O.sin theta2
      let speed := |len * omega2|
      let ke := 0.5 * mass * speed * speed
      let pe := mass * g * (len - len * O.cos theta2)
      let pt : GraphDataPoint :=
        { time := t, positionX := x, positionY := y,
          velocityX := vx, velocityY := vy,
          accelerationX := -len * alpha * O.sin theta2,
          accelerationY := -len * alpha * O.cos theta2,
          kineticEnergy := ke, potentialEnergy := pe,
          totalEnergy := ke + pe }
      pt :: pendLoop O g len mass dt maxTime fuel omega2 theta2 (t + dt)
    else []

/-- Embedding of `generatePendulumData` (src/unnamed/part_002, lines
159-214): exact nonlinear simple pendulum with semi-implicit Euler. -/
def generatePendulumData (O : JsMath) (params : SimulationParameters) :
    List GraphDataPoint :=
  let g := jsOr params.gravity 9.8
  let len := jsOr params.length 1
  let mass := jsOr params.mass 1
  let dt : ℚ := 0.02
  let initialAngleRad := jsOr params.initialAngle 30 * O.pi / 180
  let maxTime : ℚ := 10
  pendLoop O g len mass dt maxTime 501 0 initialAngleRad 0

/-- Loop of `generateConicalPendulumData` (src/unnamed/part_002,
lines 233-262); only `t` evolves. -/
def conLoop (O : JsMath) (g len mass radius height omega dt maxTime : ℚ) :
    ℕ → ℚ → List GraphDataPoint
  | 0, _ => []
  | fuel + 1, t =>
    if t < maxTime then
      let phi := omega * t
      let x := radius * O.cos phi
      let y := -height
      let vx := -radius * omega * O.sin phi
      let vy : ℚ := 0
      let speed := radius * omega
      let ke := 0.5 * mass * speed * speed
      let pe := mass * g * (len - height)
      let pt : GraphDataPoint :=
        { time := t, positionX := x, positionY := y,
          velocityX := vx, velocityY := vy,
          accelerationX := -radius * omega * omega * O.cos phi,
          accelerationY := 0,
          kineticEnergy := ke, potentialEnergy := pe,
          totalEnergy := ke + pe }
      pt :: conLoop O g len mass radius height omega dt maxTime fuel (t + dt)
    else []

/-- Embedding of `generateConicalPendulumData` (src/unnamed/part_002,
lines 217-265): closed-form steady circular motion. -/
def generateConicalPendulumData (O : JsMath) (params : SimulationParameters) :
    List GraphDataPoint :=
  let g := jsOr params.gravity 9.8
  let len := jsOr params.length 1
  let mass := jsOr params.mass 1
  let coneAngleRad := jsOr params.angle 30 * O.pi / 180
  let dt : ℚ := 0.02
  let radius := len * O.sin coneAngleRad
  let height := len * O.cos coneAngleRad
  let omega := O.sqrt (g / (len * O.cos coneAngleRad))
  let maxTime : ℚ := 10
  conLoop O g len mass radius height omega dt maxTime 501 0

/-- Loop of `generateInclineFrictionData` (src/unnamed/part_002,
lines 297-360); state is `(s, v, t)` with `s` the signed distance
from the bottom of the incline.  The locked branch forces the
velocity to `0` before integration. -/
def incLoop (O : JsMath) (g mass dt maxTime inclineLength muK muS
    gravityForce normalForce angleRad : ℚ) :
    ℕ → ℚ → ℚ → ℚ → List GraphDataPoint
  | 0, _, _, _ => []
  | fuel + 1, s, v, t =>
    if t < maxTime ∧ 0 ≤ s ∧ s ≤ inclineLength + 0.5 then
      let isMoving := 0.001 < |v|
      let av :=
        if ¬ isMoving then
          if |gravityForce| ≤ muS * normalForce then ((0 : ℚ), (0 : ℚ))
          else ((gravityForce + muK * normalForce) / mass, v)
        else ((gravityForce + (-(jsSign v)) * (muK * normalForce)) / mass, v)
      let a := av.1
      let v2 := av.2 + a * dt
      let s2 := s + v2 * dt
      let x := s2 * O.cos angleRad
      let y := s2 * O.sin angleRad
      let vx := v2 * O.cos angleRad
      let vy := v2 * O.sin angleRad
      let speed := |v2|
      let ke := 0.5 * mass * speed * speed
      let pe := mass * g * y
      let pt : GraphDataPoint :=
        { time := t, positionX := x, positionY := y,
          velocityX := vx, velocityY := vy,
          accelerationX := a * O.cos angleRad,
          accelerationY := a * O.sin angleRad,
          kineticEnergy := ke, potentialEnergy := pe,
          totalEnergy := ke + pe }
      pt :: incLoop O g mass dt maxTime inclineLength muK muS
             gravityForce normalForce angleRad fuel s2 v2 (t + dt)
    else []

/-- Embedding of `generateInclineFrictionData` (src/unnamed/part_002,
lines 269-363): single block on an incline with static/kinetic
Coulomb friction; static coefficient derived as `muK * 1.2`.  With
the default direction `1` the block starts at the top
(`s = inclineLength`) at rest. -/
def generateInclineFrictionData (O : JsMath) (params : SimulationParameters) :
    List GraphDataPoint :=
  let g := jsOr params.gravity 9.8
  let mass := jsOr params.mass 1
  let angleRad := jsOr params.inclineAngle 30 * O.pi / 180
  let muK := jsOr params.frictionCoefficient 0.3
  let muS := muK * 1.2
  let direction := jsOr params.direction 1
  let inclineLength : ℚ := 7.5
  let dt : ℚ := 0.02
  let s0 := if direction = 1 then inclineLength else 0
  let v0 : ℚ := if direction = 1 then 0 else 8
  let maxTime : ℚ := 10
  let gravityForce := -(mass * g * O.sin angleRad)
  let normalForce := mass * g * O.cos angleRad
  incLoop O g mass dt maxTime inclineLength muK muS gravityForce normalForce
    angleRad 501 s0 v0 0

/-- Loop of `generateFrictionHorizontalData` (src/unnamed/part_002,
lines 383-424); state is `(x, v, t)`. -/
def horizLoop (appliedForce mass dt maxTime muK maxStaticFriction normalForce : ℚ) :
    ℕ → ℚ → ℚ → ℚ → List GraphDataPoint
  | 0, _, _, _ => []
  | fuel + 1, x, v, t =>
    if t < maxTime then
      let av :=
        if |v| < 0.001 then
          if appliedForce ≤ maxStaticFriction then ((0 : ℚ), (0 : ℚ))
          else ((appliedForce - muK * normalForce) / mass, v)
        else ((appliedForce + (-(jsSign v)) * (muK * normalForce)) / mass, v)
      let a := av.1
      let v2 := av.2 + a * dt
      let x2 := x + v2 * dt
      let speed := |v2|
      let ke := 0.5 * mass * speed * speed
      let pt : GraphDataPoint :=
        { time := t, positionX := x2, positionY := 0,
          velocityX := v2, velocityY := 0,
          accelerationX := a, accelerationY := 0,
          kineticEnergy := ke, potentialEnergy := 0,
          totalEnergy := ke }
      pt :: horizLoop appliedForce mass dt maxTime muK maxStaticFriction
             normalForce fuel x2 v2 (t + dt)
    else []

/-- Embedding of `generateFrictionHorizontalData`
(src/unnamed/part_002, lines 366-427): block pushed on a horizontal
surface with static/kinetic Coulomb friction. -/
def generateFrictionHorizontalData (O : JsMath) (params : SimulationParameters) :
    List GraphDataPoint :=
  let g := jsOr params.gravity 9.8
  let mass := jsOr params.mass 2.5
  let appliedForce := jsOr params.appliedForce 15
  let muS := jsOr params.staticFriction 0.5
  let muK := jsOr params.kineticFriction 0.4
  let dt : ℚ := 0.02
  let maxTime : ℚ := 5
  let normalForce := mass * g
  let maxStaticFriction := muS * normalForce
  horizLoop appliedForce mass dt maxTime muK maxStaticFriction normalForce 501 0 0 0

/-- Loop of `generateInclinePulleyData` (src/unnamed/part_002, lines
450-507); state is `(s, v, t)`, positive `v` meaning the hanging mass
descends. -/
def pulleyLoop (O : JsMath) (g m1 m2 dt maxTime muK muS normalForce
    m1GravityParallel m2GravityForce systemMass angleRad : ℚ) :
    ℕ → ℚ → ℚ → ℚ → List GraphDataPoint
  | 0, _, _, _ => []
  | fuel + 1, s, v, t =>
    if t < maxTime ∧ s < 5 then
      let drivingForce := m2GravityForce - m1GravityParallel
      let av :=
        if |v| < 0.001 then
          if |drivingForce| ≤ muS * normalForce then ((0 : ℚ), (0 : ℚ))
          else ((drivingForce - jsSign drivingForce * (muK * normalForce)) / systemMass, v)
        else ((drivingForce + (-(jsSign v)) * (muK * normalForce)) / systemMass, v)
      let a := av.1
      let v2 := av.2 + a * dt
      let s2 := s + v2 * dt
      let x1 := s2 * O.cos angleRad
      let y1 := s2 * O.sin angleRad
      let y2pos := y1 - s2
      let speed := |v2|
      let ke := 0.5 * systemMass * speed * speed
      let pe1 := m1 * g * |y1|
      let pe2 := m2 * g * |y2pos|
      let pt : GraphDataPoint :=
        { time := t, positionX := x1, positionY := y1,
          velocityX := v2 * O.cos angleRad,
          velocityY := -v2 * O.sin angleRad,
          accelerationX := a * O.cos angleRad,
          accelerationY := -a * O.sin angleRad,
          kineticEnergy := ke, potentialEnergy := pe1 + pe2,
          totalEnergy := ke + pe1 + pe2 }
      pt :: pulleyLoop O g m1 m2 dt maxTime muK muS normalForce
             m1GravityParallel m2GravityForce systemMass angleRad fuel s2 v2 (t + dt)
    else []

/-- Embedding of `generateInclinePulleyData` (src/unnamed/part_002,
lines 430-510): two coupled masses, one on the incline and one
hanging over a pulley. -/
def generateInclinePulleyData (O : JsMath) (params : SimulationParameters) :
    List GraphDataPoint :=
  let g := jsOr params.gravity 9.8
  let m1 := jsOr params.mass 2
  let m2 := jsOr params.mass2 1.5
  let angleRad := jsOr params.inclineAngle 30 * O.pi / 180
  let muK := jsOr params.frictionCoefficient 0.2
  let muS := muK * 1.2
  let dt : ℚ := 0.02
  let maxTime : ℚ := 10
  let normalForce := m1 * g * O.cos angleRad
  let m1GravityParallel := m1 * g * O.sin angleRad
  let m2GravityForce := m2 * g
  let systemMass := m1 + m2
  pulleyLoop O g m1 m2 dt maxTime muK muS normalForce m1GravityParallel
    m2GravityForce systemMass angleRad 501 0 0 0

/-- Per-tick accelerations `(a1, a2)` of the top and bottom block in
`generateBlockOnBlockData` (src/unnamed/part_002, lines 559-584),
factored out of the loop body (the source computes them inline; they
do not read the loop state). -/
def blockAccels (m1 m2 F f1max f1k f2k : ℚ) : ℚ × ℚ :=
  let netForceSystem := F - f2k
  if 0 < netForceSystem then
    let aCommon := netForceSystem / (m1 + m2)
    let fNeeded := m1 * aCommon
    if fNeeded ≤ f1max then (aCommon, aCommon)
    else (f1k / m1, (F - f2k - f1k) / m2)
  else (0, 0)

/-- Loop of `generateBlockOnBlockData` (src/unnamed/part_002, lines
542-608); state is `(v1, v2, x1, x2, t)` (top block `1`, bottom
block `2`, absolute positions). -/
def blockLoop (m1 m2 F f1max f1k f2k dt maxTime : ℚ) :
    ℕ → ℚ → ℚ → ℚ → ℚ → ℚ → List GraphDataPoint
  | 0, _, _, _, _, _ => []
  | fuel + 1, v1, v2, x1, x2, t =>
    if t < maxTime then
      let a := blockAccels m1 m2 F f1max f1k f2k
      let v1b := v1 + a.1 * dt
      let v2b := v2 + a.2 * dt
      let x1b := x1 + v1b * dt
      let x2b := x2 + v2b * dt
      let ke := 0.5 * m1 * v1b * v1b + 0.5 * m2 * v2b * v2b
      let pt : GraphDataPoint :=
        { time := t, positionX := x2b, positionY := x1b - x2b,
          velocityX := v1b, velocityY := v2b,
          accelerationX := a.1, accelerationY := a.2,
          kineticEnergy := ke, potentialEnergy := 0,
          totalEnergy := ke }
      pt :: blockLoop m1 m2 F f1max f1k f2k dt maxTime fuel v1b v2b x1b x2b (t + dt)
    else []

/-- Embedding of `generateBlockOnBlockData` (src/unnamed/part_002,
lines 513-611): stacked blocks, force applied to the bottom block,
friction between the blocks and with the ground. -/
def generateBlockOnBlockData (O : JsMath) (params : SimulationParameters) :
    List GraphDataPoint :=
  let g := jsOr params.gravity 9.8
  let m1 := jsOr params.mass 2
  let m2 := jsOr params.mass2 4
  let F := jsOr params.appliedForce 20
  let mu1 := jsOr params.frictionCoefficient 0.3
  let mu2 := jsOr params.frictionCoefficient2 0.1
  let dt : ℚ := 0.02
  let maxTime : ℚ := 10
  let f1max := mu1 * m1 * g
  let f1k := mu1 * m1 * g
  let f2k := mu2 * (m1 + m2) * g
  blockLoop m1 m2 F f1max f1k f2k dt maxTime 501 0 0 0 0 0

/-- Embedding of `generateSimulationData` (src/unnamed/part_002,
lines 64-91): classify the scenario, then dispatch to the matching
model generator.  The four kinematics variants and the `default`
branch all call `generateKinematicsData`. -/
def generateSimulationData (O : JsMath) (problem : PhysicsProblem)
    (params : SimulationParameters) : List GraphDataPoint :=
  match getSimulationType problem params with
  | .pendulum => generatePendulumData O params
  | .conicalPendulum => generateConicalPendulumData O params
  | .inclineFriction => generateInclineFrictionData O params
  | .frictionHorizontal => generateFrictionHorizontalData O params
  | .inclinePulley => generateInclinePulleyData O params
  | .projectile => generateKinematicsData O params
  | .verticalProjectile => generateKinematicsData O params
  | .freeFall => generateKinematicsData O params
  | .uniformAcceleration => generateKinematicsData O params
  | .blockOnBlock => generateBlockOnBlockData O params

/-- The specification's closed tag set `MotionModelKind`. -/
inductive MotionModelKind where
  | Projectile
  | Pendulum
  | ConicalPendulum
  | InclineFriction
  | HorizontalFriction
  | InclinePulley
  | StackedBlock
deriving DecidableEq

/-- Collapse of the engine's ten-way `SimulationType` onto the
specification's seven-way `MotionModelKind`: the four kinematics
variants are all the Projectile model (they dispatch to the same
generator). -/
def toKind : SimulationType → MotionModelKind
  | .projectile => .Projectile
  | .verticalProjectile => .Projectile
  | .freeFall => .Projectile
  | .uniformAcceleration => .Projectile
  | .pendulum => .Pendulum
  | .conicalPendulum => .ConicalPendulum
  | .inclineFriction => .InclineFriction
  | .frictionHorizontal => .HorizontalFriction
  | .inclinePulley => .InclinePulley
  | .blockOnBlock => .StackedBlock

/-- Classifier written from the words of claim C1 / spec §4.1
(decision order, first match wins): pendulum tag first, then incline
angle (pulley when a second mass is present), then stacked block
(second mass and applied force), then horizontal friction (applied
force), else the Projectile family, silently. -/
def claimClassify (problem : PhysicsProblem) (params : SimulationParameters) :
    MotionModelKind :=
  if (problem.objects.head?).map PhysicsObject.type = some "pendulum" then
    if params.angle ≠ none ∧ params.length ≠ none then .ConicalPendulum
    else .Pendulum
  else if params.inclineAngle ≠ none then
    if params.mass2 ≠ none then .InclinePulley else .InclineFriction
  else if params.mass2 ≠ none ∧ params.appliedForce ≠ none then .StackedBlock
  else if params.appliedForce ≠ none then .HorizontalFriction
  else .Projectile

/-- Per-tick accelerations of the two stacked blocks as described by
claim C2 / spec §4.8, written from the claim's words: with ground
friction `f_ground = mu2*(m1+m2)*g` and inter-block bound
`f1_max = f1_k = mu1*m1*g`, when `F > f_ground` the common
acceleration `(F - f_ground)/(m1+m2)` is assigned to both blocks iff
`m1 * a_common ≤ f1_max`, otherwise the top block gets `f1_k/m1` and
the bottom block `(F - f_ground - f1_k)/m2`; when `F ≤ f_ground` both
accelerations are `0`. -/
def claimBlockAccels (g m1 m2 F mu1 mu2 : ℚ) : ℚ × ℚ :=
  let fGround := mu2 * (m1 + m2) * g
  let f1max := mu1 * m1 * g
  let f1kin := mu1 * m1 * g
  if fGround < F then
    let aCommon := (F - fGround) / (m1 + m2)
    if m1 * aCommon ≤ f1max then (aCommon, aCommon)
    else (f1kin / m1, (F - fGround - f1kin) / m2)
  else (0, 0)

/-- Trivial concrete oracle, used to evaluate the engine at concrete
inputs in witnesses and counterexamples (the facts witnessed there
hold for every oracle or do not depend on these entries). -/
def zeroOracle : JsMath :=
  { sin := fun _ => 0, cos := fun _ => 0, sqrt := fun _ => 0, pi := 0 }

/-- Concrete oracle whose sine and cosine entries return rational
approximations of sin 15° ≈ 0.2588 and cos 15° ≈ 0.9659 on every
input; it satisfies the trig-accuracy hypotheses of the incline
static-lock theorem at the 15° scenario. -/
def incline15Oracle : JsMath :=
  { sin := fun _ => 0.2588, cos := fun _ => 0.9659, sqrt := fun _ => 0, pi := 3.14159 }

/-- The incline scenario of claim C3: 15° incline, kinetic friction
coefficient 0.3, default direction (block starts at the top of the
incline at rest, so initial velocity is zero). -/
def incline15Params : SimulationParameters :=
  { inclineAngle := some 15, frictionCoefficient := some 0.3 }

/-- The sample an incline-friction tick emits when the block is
Locked at distance `s` with zero velocity: all velocity, acceleration
and kinetic-energy fields are zero and the position is unchanged. -/
def lockedSample (O : JsMath) (g mass angleRad s t : ℚ) : GraphDataPoint :=
  { time := t,
    positionX := s * O.cos angleRad, positionY := s * O.sin angleRad,
    velocityX := 0, velocityY := 0,
    accelerationX := 0, accelerationY := 0,
    kineticEnergy := 0,
    potentialEnergy := mass * g * (s * O.sin angleRad),
    totalEnergy := mass * g * (s * O.sin angleRad) }

/-- A problem whose first object is not a pendulum. -/
def ballProblem : PhysicsProblem := { objects := [{ type := "ball" }] }

/-- Scenario passing `appliedForce = 0` explicitly. -/
def zeroForceParams : SimulationParameters :=
  { angle := some 45, initialVelocity := some 10, appliedForce := some 0 }

/-- The same scenario with `appliedForce` omitted entirely. -/
def noForceParams : SimulationParameters :=
  { angle := some 45, initialVelocity := some 10 }

/-- A small projectile scenario used to witness the termination
theorem at a concrete input: 45° launch with zero speed from height
0.02 m; the body sinks below the floor on the third step. -/
def wParams : SimulationParameters :=
  { angle := some 45, initialVelocity := some 0, initialHeight := some 0.02 }

/-- The second sample (index 1) of `generateKinematicsData zeroOracle
wParams`, still above the floor. -/
def wSample1 : GraphDataPoint :=
  { time := 1/50, positionX := 0, positionY := 103/12500,
    velocityX := 0, velocityY := -49/125,
    accelerationX := 0, accelerationY := -49/5,
    kineticEnergy := 0, potentialEnergy := 5047/62500,
    totalEnergy := 5047/62500 }

/-- The third and final sample (index 2) of `generateKinematicsData
zeroOracle wParams`, below the floor. -/
def wSample2 : GraphDataPoint :=
  { time := 1/25, positionX := 0, positionY := -11/3125,
    velocityX := 0, velocityY := -147/250,
    accelerationX := 0, accelerationY := -49/5,
    kineticEnergy := 0, potentialEnergy := 0,
    totalEnergy := 0 }

/-- Componentwise order on samples used to express that both blocks'
velocities and positions are non-decreasing along a stacked-block
trajectory: `velocityX`/`velocityY` are the top/bottom block
velocities, `positionX` is the bottom block's absolute position, and
`positionY + positionX` recovers the top block's absolute position
(the sample stores the top block's position relative to the bottom
block in `positionY`). -/
def sampleLE (p q : GraphDataPoint) : Prop :=
  p.velocityX ≤ q.velocityX ∧ p.velocityY ≤ q.velocityY ∧
  p.positionX ≤ q.positionX ∧
  p.positionY + p.positionX ≤ q.positionY + q.positionX

/-- C1: `getSimulationType` selects the motion model by exactly the
fixed first-match order of the claim: pendulum tag (conical when both
angle and length are present), then incline angle (pulley when a
second mass is present, else incline friction), then stacked block
(second mass and applied force), then horizontal friction (applied
force), otherwise a Projectile variant; unrecognised parameter
combinations fall back silently to Projectile (the classifier is a
total function, it cannot raise). -/
theorem getSimulationType_follows_claim_order
    (problem : PhysicsProblem) (params : SimulationParameters) :
    toKind (getSimulationType problem params) = claimClassify problem params := by
  simp only [getSimulationType, claimClassify]
  split_ifs <;> rfl

/-! ### Time bookkeeping of each integration loop

Every loop pushes its sample with the current `t` and then advances
`t` by the constant `dt`, so the `i`-th sample of a loop started at
`t` has `time = t + i * dt`. -/

theorem kinLoop_get?_time (O : JsMath) (g dt mass maxTime angleRad : ℚ) (isUA : Bool) :
    ∀ (fuel k : ℕ) (vx vy x y t : ℚ) (i : ℕ) (pt : GraphDataPoint),
      (kinLoop O g dt mass maxTime angleRad isUA fuel k vx vy x y t).get? i = some pt →
      pt.time = t + i * dt := by
  intro fuel
  induction fuel with
  | zero => intro k vx vy x y t i pt h; simp [kinLoop] at h
  | succ fuel ih =>
    intro k vx vy x y t i pt h
    rw [kinLoop] at h
    by_cases hg : t < maxTime ∧ -100 ≤ y
    · rw [if_pos hg] at h
      match i with
      | 0 =>
        simp only [List.get?_cons_zero, Option.some.injEq] at h
        subst h; simp
      | i + 1 =>
        simp only [List.get?_cons_succ] at h
        split at h
        · simp at h
        · rw [ih _ _ _ _ _ _ i pt h]; push_cast; ring
    · rw [if_neg hg] at h
      simp at h

theorem pendLoop_get?_time (O : JsMath) (g len mass dt maxTime : ℚ) :
    ∀ (fuel : ℕ) (omega theta t : ℚ) (i : ℕ) (pt : GraphDataPoint),
      (pendLoop O g len mass dt maxTime fuel omega theta t).get? i = some pt →
      pt.time = t + i * dt := by
  intro fuel
  induction fuel with
  | zero => intro omega theta t i pt h; simp [pendLoop] at h
  | succ fuel ih =>
    intro omega theta t i pt h
    rw [pendLoop] at h
    split_ifs at h with hg
    · match i with
      | 0 =>
        simp only [List.get?_cons_zero, Option.some.injEq] at h
        subst h; simp
      | i + 1 =>
        simp only [List.get?_cons_succ] at h
        rw [ih _ _ _ i pt h]; push_cast; ring
    · simp at h

theorem conLoop_get?_time (O : JsMath) (g len mass radius height omega dt maxTime : ℚ) :
    ∀ (fuel : ℕ) (t : ℚ) (i : ℕ) (pt : GraphDataPoint),
      (conLoop O g len mass radius height omega dt maxTime fuel t).get? i = some pt →
      pt.time = t + i * dt := by
  intro fuel
  induction fuel with
  | zero => intro t i pt h; simp [conLoop] at h
  | succ fuel ih =>
    intro t i pt h
    rw [conLoop] at h
    split_ifs at h with hg
    · match i with
      | 0 =>
        simp only [List.get?_cons_zero, Option.some.injEq] at h
        subst h; simp
      | i + 1 =>
        simp only [List.get?_cons_succ] at h
        rw [ih _ i pt h]; push_cast; ring
    · simp at h

theorem incLoop_get?_time (O : JsMath) (g mass dt maxTime inclineLength muK muS
    gravityForce normalForce angleRad : ℚ) :
    ∀ (fuel : ℕ) (s v t : ℚ) (i : ℕ) (pt : GraphDataPoint),
      (incLoop O g mass dt maxTime inclineLength muK muS gravityForce normalForce
        angleRad fuel s v t).get? i = some pt →
      pt.time = t + i * dt := by
  intro fuel
  induction fuel with
  | zero => intro s v t i pt h; simp [incLoop] at h
  | succ fuel ih =>
    intro s v t i pt h
    rw [incLoop] at h
    by_cases hg : t < maxTime ∧ 0 ≤ s ∧ s ≤ inclineLength + 0.5
    · rw [if_pos hg] at h
      match i with
      | 0 =>
        simp only [List.get?_cons_zero, Option.some.injEq] at h
        subst h; simp
      | i + 1 =>
        simp only [List.get?_cons_succ] at h
        rw [ih _ _ _ i pt h]; push_cast; ring
    · rw [if_neg hg] at h
      simp at h

theorem horizLoop_get?_time (appliedForce mass dt maxTime muK maxStaticFriction
    normalForce : ℚ) :
    ∀ (fuel : ℕ) (x v t : ℚ) (i : ℕ) (pt : GraphDataPoint),
      (horizLoop appliedForce mass dt maxTime muK maxStaticFriction normalForce
        fuel x v t).get? i = some pt →
      pt.time = t + i * dt := by
  intro fuel
  induction fuel with
  | zero => intro x v t i pt h; simp [horizLoop] at h
  | succ fuel ih =>
    intro x v t i pt h
    rw [horizLoop] at h
    by_cases hg : t < maxTime
    · rw [if_pos hg] at h
      match i with
      | 0 =>
        simp only [List.get?_cons_zero, Option.some.injEq] at h
        subst h; simp
      | i + 1 =>
        simp only [List.get?_cons_succ] at h
        rw [ih _ _ _ i pt h]; push_cast; ring
    · rw [if_neg hg] at h
      simp at h

theorem pulleyLoop_get?_time (O : JsMath) (g m1 m2 dt maxTime muK muS normalForce
    m1GravityParallel m2GravityForce systemMass angleRad : ℚ) :
    ∀ (fuel : ℕ) (s v t : ℚ) (i : ℕ) (pt : GraphDataPoint),
      (pulleyLoop O g m1 m2 dt maxTime muK muS normalForce m1GravityParallel
        m2GravityForce systemMass angleRad fuel s v t).get? i = some pt →
      pt.time = t + i * dt := by
  intro fuel
  induction fuel with
  | zero => intro s v t i pt h; simp [pulleyLoop] at h
  | succ fuel ih =>
    intro s v t i pt h
    rw [pulleyLoop] at h
    by_cases hg : t < maxTime ∧ s < 5
    · rw [if_pos hg] at h
      match i with
      | 0 =>
        simp only [List.get?_cons_zero, Option.some.injEq] at h
        subst h; simp
      | i + 1 =>
        simp only [List.get?_cons_succ] at h
        rw [ih _ _ _ i pt h]; push_cast; ring
    · rw [if_neg hg] at h
      simp at h

theorem blockLoop_get?_time (m1 m2 F f1max f1k f2k dt maxTime : ℚ) :
    ∀ (fuel : ℕ) (v1 v2 x1 x2 t : ℚ) (i : ℕ) (pt : GraphDataPoint),
      (blockLoop m1 m2 F f1max f1k f2k dt maxTime fuel v1 v2 x1 x2 t).get? i = some pt →
      pt.time = t + i * dt := by
  intro fuel
  induction fuel with
  | zero => intro v1 v2 x1 x2 t i pt h; simp [blockLoop] at h
  | succ fuel ih =>
    intro v1 v2 x1 x2 t i pt h
    rw [blockLoop] at h
    split_ifs at h with hg
    · match i with
      | 0 =>
        simp only [List.get?_cons_zero, Option.some.injEq] at h
        subst h; simp
      | i + 1 =>
        simp only [List.get?_cons_succ] at h
        rw [ih _ _ _ _ _ i pt h]; push_cast; ring
    · simp at h

/-! ### Energy bookkeeping: `totalEnergy` is the sum `ke + pe` in
every emitted sample of every loop (for the horizontal-friction and
stacked-block models the emitted potential energy is `0` and the
total is the kinetic energy). -/

theorem kinLoop_energy (O : JsMath) (g dt mass maxTime angleRad : ℚ) (isUA : Bool) :
    ∀ (fuel k : ℕ) (vx vy x y t : ℚ),
      ∀ pt ∈ kinLoop O g dt mass maxTime angleRad isUA fuel k vx vy x y t,
        pt.totalEnergy = pt.kineticEnergy + pt.potentialEnergy := by
  intro fuel
  induction fuel with
  | zero => intro k vx vy x y t pt h; simp [kinLoop] at h
  | succ fuel ih =>
    intro k vx vy x y t pt h
    rw [kinLoop] at h
    by_cases hg : t < maxTime ∧ -100 ≤ y
    · rw [if_pos hg] at h
      simp only [List.mem_cons] at h
      rcases h with h | h
      · subst h; rfl
      · split at h
        · simp at h
        · exact ih _ _ _ _ _ _ pt h
    · rw [if_neg hg] at h; simp at h

theorem pendLoop_energy (O : JsMath) (g len mass dt maxTime : ℚ) :
    ∀ (fuel : ℕ) (omega theta t : ℚ),
      ∀ pt ∈ pendLoop O g len mass dt maxTime fuel omega theta t,
        pt.totalEnergy = pt.kineticEnergy + pt.potentialEnergy := by
  intro fuel
  induction fuel with
  | zero => intro omega theta t pt h; simp [pendLoop] at h
  | succ fuel ih =>
    intro omega theta t pt h
    rw [pendLoop] at h
    by_cases hg : t < maxTime
    · rw [if_pos hg] at h
      simp only [List.mem_cons] at h
      rcases h with h | h
      · subst h; rfl
      · exact ih _ _ _ pt h
    · rw [if_neg hg] at h; simp at h

theorem conLoop_energy (O : JsMath) (g len mass radius height omega dt maxTime : ℚ) :
    ∀ (fuel : ℕ) (t : ℚ),
      ∀ pt ∈ conLoop O g len mass radius height omega dt maxTime fuel t,
        pt.totalEnergy = pt.kineticEnergy + pt.potentialEnergy := by
  intro fuel
  induction fuel with
  | zero => intro t pt h; simp [conLoop] at h
  | succ fuel ih =>
    intro t pt h
    rw [conLoop] at h
    by_cases hg : t < maxTime
    · rw [if_pos hg] at h
      simp only [List.mem_cons] at h
      rcases h with h | h
      · subst h; rfl
      · exact ih _ pt h
    · rw [if_neg hg] at h; simp at h

theorem incLoop_energy (O : JsMath) (g mass dt maxTime inclineLength muK muS
    gravityForce normalForce angleRad : ℚ) :
    ∀ (fuel : ℕ) (s v t : ℚ),
      ∀ pt ∈ incLoop O g mass dt maxTime inclineLength muK muS gravityForce
          normalForce angleRad fuel s v t,
        pt.totalEnergy = pt.kineticEnergy + pt.potentialEnergy := by
  intro fuel
  induction fuel with
  | zero => intro s v t pt h; simp [incLoop] at h
  | succ fuel ih =>
    intro s v t pt h
    rw [incLoop] at h
    by_cases hg : t < maxTime ∧ 0 ≤ s ∧ s ≤ inclineLength + 0.5
    · rw [if_pos hg] at h
      simp only [List.mem_cons] at h
      rcases h with h | h
      · subst h; rfl
      · exact ih _ _ _ pt h
    · rw [if_neg hg] at h; simp at h

theorem horizLoop_energy (appliedForce mass dt maxTime muK maxStaticFriction
    normalForce : ℚ) :
    ∀ (fuel : ℕ) (x v t : ℚ),
      ∀ pt ∈ horizLoop appliedForce mass dt maxTime muK maxStaticFriction
          normalForce fuel x v t,
        pt.totalEnergy = pt.kineticEnergy + pt.potentialEnergy := by
  intro fuel
  induction fuel with
  | zero => intro x v t pt h; simp [horizLoop] at h
  | succ fuel ih =>
    intro x v t pt h
    rw [horizLoop] at h
    by_cases hg : t < maxTime
    · rw [if_pos hg] at h
      simp only [List.mem_cons] at h
      rcases h with h | h
      · subst h; simp
      · exact ih _ _ _ pt h
    · rw [if_neg hg] at h; simp at h

theorem pulleyLoop_energy (O : JsMath) (g m1 m2 dt maxTime muK muS normalForce
    m1GravityParallel m2GravityForce systemMass angleRad : ℚ) :
    ∀ (fuel : ℕ) (s v t : ℚ),
      ∀ pt ∈ pulleyLoop O g m1 m2 dt maxTime muK muS normalForce
          m1GravityParallel m2GravityForce systemMass angleRad fuel s v t,
        pt.totalEnergy = pt.kineticEnergy + pt.potentialEnergy := by
  intro fuel
  induction fuel with
  | zero => intro s v t pt h; simp [pulleyLoop] at h
  | succ fuel ih =>
    intro s v t pt h
    rw [pulleyLoop] at h
    by_cases hg : t < maxTime ∧ s < 5
    · rw [if_pos hg] at h
      simp only [List.mem_cons] at h
      rcases h with h | h
      · subst h; simp; ring
      · exact ih _ _ _ pt h
    · rw [if_neg hg] at h; simp at h

theorem blockLoop_energy (m1 m2 F f1max f1k f2k dt maxTime : ℚ) :
    ∀ (fuel : ℕ) (v1 v2 x1 x2 t : ℚ),
      ∀ pt ∈ blockLoop m1 m2 F f1max f1k f2k dt maxTime fuel v1 v2 x1 x2 t,
        pt.totalEnergy = pt.kineticEnergy + pt.potentialEnergy := by
  intro fuel
  induction fuel with
  | zero => intro v1 v2 x1 x2 t pt h; simp [blockLoop] at h
  | succ fuel ih =>
    intro v1 v2 x1 x2 t pt h
    rw [blockLoop] at h
    by_cases hg : t < maxTime
    · rw [if_pos hg] at h
      simp only [List.mem_cons] at h
      rcases h with h | h
      · subst h; simp
      · exact ih _ _ _ _ _ pt h
    · rw [if_neg hg] at h; simp at h

/-! ### Dispatcher-level corollaries -/

theorem generateSimulationData_get?_time (O : JsMath) (problem : PhysicsProblem)
    (params : SimulationParameters) (i : ℕ) (pt : GraphDataPoint)
    (h : (generateSimulationData O problem params).get? i = some pt) :
    pt.time = i * 0.02 := by
  cases htype : getSimulationType problem params <;>
    simp only [generateSimulationData, htype] at h
  case pendulum =>
    rw [generatePendulumData] at h
    simpa using pendLoop_get?_time _ _ _ _ _ _ _ _ _ _ _ _ h
  case conicalPendulum =>
    rw [generateConicalPendulumData] at h
    simpa using conLoop_get?_time _ _ _ _ _ _ _ _ _ _ _ _ _ h
  case inclineFriction =>
    rw [generateInclineFrictionData] at h
    simpa using incLoop_get?_time _ _ _ _ _ _ _ _ _ _ _ _ _ _ _ _ _ h
  case frictionHorizontal =>
    rw [generateFrictionHorizontalData] at h
    simpa using horizLoop_get?_time _ _ _ _ _ _ _ _ _ _ _ _ _ h
  case inclinePulley =>
    rw [generateInclinePulleyData] at h
    simpa using pulleyLoop_get?_time _ _ _ _ _ _ _ _ _ _ _ _ _ _ _ _ _ _ _ h
  case blockOnBlock =>
    rw [generateBlockOnBlockData] at h
    simpa using blockLoop_get?_time _ _ _ _ _ _ _ _ _ _ _ _ _ _ _ _ h
  case projectile =>
    rw [generateKinematicsData] at h
    simpa using kinLoop_get?_time _ _ _ _ _ _ _ _ _ _ _ _ _ _ _ _ h
  case verticalProjectile =>
    rw [generateKinematicsData] at h
    simpa using kinLoop_get?_time _ _ _ _ _ _ _ _ _ _ _ _ _ _ _ _ h
  case freeFall =>
    rw [generateKinematicsData] at h
    simpa using kinLoop_get?_time _ _ _ _ _ _ _ _ _ _ _ _ _ _ _ _ h
  case uniformAcceleration =>
    rw [generateKinematicsData] at h
    simpa using kinLoop_get?_time _ _ _ _ _ _ _ _ _ _ _ _ _ _ _ _ h

theorem generateSimulationData_energy_mem (O : JsMath) (problem : PhysicsProblem)
    (params : SimulationParameters) (pt : GraphDataPoint)
    (h : pt ∈ generateSimulationData O problem params) :
    pt.totalEnergy = pt.kineticEnergy + pt.potentialEnergy := by
  cases htype : getSimulationType problem params <;>
    simp only [generateSimulationData, htype] at h
  case pendulum =>
    rw [generatePendulumData] at h
    exact pendLoop_energy _ _ _ _ _ _ _ _ _ _ pt h
  case conicalPendulum =>
    rw [generateConicalPendulumData] at h
    exact conLoop_energy _ _ _ _ _ _ _ _ _ _ _ pt h
  case inclineFriction =>
    rw [generateInclineFrictionData] at h
    exact incLoop_energy _ _ _ _ _ _ _ _ _ _ _ _ _ _ _ pt h
  case frictionHorizontal =>
    rw [generateFrictionHorizontalData] at h
    exact horizLoop_energy _ _ _ _ _ _ _ _ _ _ _ pt h
  case inclinePulley =>
    rw [generateInclinePulleyData] at h
    exact pulleyLoop_energy _ _ _ _ _ _ _ _ _ _ _ _ _ _ _ _ _ pt h
  case blockOnBlock =>
    rw [generateBlockOnBlockData] at h
    exact blockLoop_energy _ _ _ _ _ _ _ _ _ _ _ _ _ _ pt h
  case projectile =>
    rw [generateKinematicsData] at h
    exact kinLoop_energy _ _ _ _ _ _ _ _ _ _ _ _ _ _ pt h
  case verticalProjectile =>
    rw [generateKinematicsData] at h
    exact kinLoop_energy _ _ _ _ _ _ _ _ _ _ _ _ _ _ pt h
  case freeFall =>
    rw [generateKinematicsData] at h
    exact kinLoop_energy _ _ _ _ _ _ _ _ _ _ _ _ _ _ pt h
  case uniformAcceleration =>
    rw [generateKinematicsData] at h
    exact kinLoop_energy _ _ _ _ _ _ _ _ _ _ _ _ _ _ pt h

/-- C6: in every trajectory returned by `generateSimulationData`, for
every model, the `time` field of the `i`-th sample equals `i * 0.02`:
the sequence starts at `0` and advances by exactly the constant
positive step `dt = 0.02` from each sample to the next (hence it is
strictly increasing). -/
theorem generateSimulationData_time_starts_at_zero_and_steps_by_dt
    (O : JsMath) (problem : PhysicsProblem) (params : SimulationParameters)
    (i : Fin (generateSimulationData O problem params).length) :
    ((generateSimulationData O problem params).get i).time = i.val * 0.02 :=
  generateSimulationData_get?_time O problem params i.val _ (List.get?_eq_get i.isLt)

/-- C7: in every sample produced by every model, `totalEnergy` equals
`kineticEnergy + potentialEnergy` exactly: each loop emits the total
as the sum of the two energy fields it just computed, never as an
independent quantity. -/
theorem generateSimulationData_totalEnergy_is_sum
    (O : JsMath) (problem : PhysicsProblem) (params : SimulationParameters)
    (i : Fin (generateSimulationData O problem params).length) :
    ((generateSimulationData O problem params).get i).totalEnergy =
      ((generateSimulationData O problem params).get i).kineticEnergy +
        ((generateSimulationData O problem params).get i).potentialEnergy :=
  generateSimulationData_energy_mem O problem params _ (List.get_mem _ _ _)

/-- C8: `generateSimulationData` is deterministic: it is a pure
function of its inputs (the embedding is a function, with the `Math`
oracle made explicit), so two calls with identical problem and
parameter inputs return identical trajectories. -/
theorem generateSimulationData_deterministic
    (O : JsMath) (problem1 problem2 : PhysicsProblem)
    (params1 params2 : SimulationParameters)
    (hp : problem1 = problem2) (hq : params1 = params2) :
    generateSimulationData O problem1 params1 =
      generateSimulationData O problem2 params2 := by
  rw [hp, hq]

/-- Witness for C8 at concrete inputs. -/
theorem generateSimulationData_deterministic_witness :
    ballProblem = ballProblem ∧ noForceParams = noForceParams ∧
      generateSimulationData zeroOracle ballProblem noForceParams =
        generateSimulationData zeroOracle ballProblem noForceParams :=
  ⟨rfl, rfl, generateSimulationData_deterministic zeroOracle ballProblem
    ballProblem noForceParams noForceParams rfl rfl⟩

/-! ### Stacked-block per-tick accelerations (claim C2) -/

theorem blockAccels_eq_claim (g m1 m2 F mu1 mu2 : ℚ) :
    blockAccels m1 m2 F (mu1 * m1 * g) (mu1 * m1 * g) (mu2 * (m1 + m2) * g) =
      claimBlockAccels g m1 m2 F mu1 mu2 := by
  simp only [blockAccels, claimBlockAccels, sub_pos]

theorem blockLoop_accels (m1 m2 F f1max f1k f2k dt maxTime : ℚ) :
    ∀ (fuel : ℕ) (v1 v2 x1 x2 t : ℚ),
      ∀ pt ∈ blockLoop m1 m2 F f1max f1k f2k dt maxTime fuel v1 v2 x1 x2 t,
        pt.accelerationX = (blockAccels m1 m2 F f1max f1k f2k).1 ∧
          pt.accelerationY = (blockAccels m1 m2 F f1max f1k f2k).2 := by
  intro fuel
  induction fuel with
  | zero => intro v1 v2 x1 x2 t pt h; simp [blockLoop] at h
  | succ fuel ih =>
    intro v1 v2 x1 x2 t pt h
    rw [blockLoop] at h
    by_cases hg : t < maxTime
    · rw [if_pos hg] at h
      simp only [List.mem_cons] at h
      rcases h with h | h
      · subst h; exact ⟨rfl, rfl⟩
      · exact ih _ _ _ _ _ pt h
    · rw [if_neg hg] at h; simp at h

theorem generateBlockOnBlockData_accels_mem (O : JsMath)
    (params : SimulationParameters) (pt : GraphDataPoint)
    (hmem : pt ∈ generateBlockOnBlockData O params) :
    pt.accelerationX =
      (claimBlockAccels (jsOr params.gravity 9.8) (jsOr params.mass 2)
        (jsOr params.mass2 4) (jsOr params.appliedForce 20)
        (jsOr params.frictionCoefficient 0.3)
        (jsOr params.frictionCoefficient2 0.1)).1 ∧
    pt.accelerationY =
      (claimBlockAccels (jsOr params.gravity 9.8) (jsOr params.mass 2)
        (jsOr params.mass2 4) (jsOr params.appliedForce 20)
        (jsOr params.frictionCoefficient 0.3)
        (jsOr params.frictionCoefficient2 0.1)).2 := by
  rw [generateBlockOnBlockData] at hmem
  have := blockLoop_accels _ _ _ _ _ _ _ _ _ _ _ _ _ _ pt hmem
  rwa [blockAccels_eq_claim] at this

/-- C2: in the block-on-block model, every tick carries exactly the
accelerations described by the claim (`claimBlockAccels`): with
`f_ground = mu2*(m1+m2)*g`, when `F > f_ground` the common
acceleration `(F - f_ground)/(m1+m2)` is assigned to both blocks if
and only if `m1 * a_common ≤ f1_max = mu1*m1*g`, otherwise the top
block's acceleration is `f1_k/m1` and the bottom block's is
`(F - f_ground - f1_k)/m2`; when `F ≤ f_ground` both are `0`.  The
sample fields `accelerationX` / `accelerationY` are the top / bottom
block accelerations. -/
theorem generateBlockOnBlockData_accels_follow_claim
    (O : JsMath) (params : SimulationParameters)
    (i : Fin (generateBlockOnBlockData O params).length) :
    ((generateBlockOnBlockData O params).get i).accelerationX =
      (claimBlockAccels (jsOr params.gravity 9.8) (jsOr params.mass 2)
        (jsOr params.mass2 4) (jsOr params.appliedForce 20)
        (jsOr params.frictionCoefficient 0.3)
        (jsOr params.frictionCoefficient2 0.1)).1 ∧
    ((generateBlockOnBlockData O params).get i).accelerationY =
      (claimBlockAccels (jsOr params.gravity 9.8) (jsOr params.mass 2)
        (jsOr params.mass2 4) (jsOr params.appliedForce 20)
        (jsOr params.frictionCoefficient 0.3)
        (jsOr params.frictionCoefficient2 0.1)).2 :=
  generateBlockOnBlockData_accels_mem O params _ (List.get_mem _ _ _)

/-! ### Monotonicity of the stacked-block trajectory (claim C10) -/

theorem sampleLE_trans : Transitive sampleLE := by
  intro p q r hpq hqr
  exact ⟨le_trans hpq.1 hqr.1, le_trans hpq.2.1 hqr.2.1,
    le_trans hpq.2.2.1 hqr.2.2.1, le_trans hpq.2.2.2 hqr.2.2.2⟩

instance : IsTrans GraphDataPoint sampleLE :=
  ⟨fun _ _ _ hab hbc => sampleLE_trans hab hbc⟩

/-- Positivity of the per-tick stacked-block accelerations: with
positive masses and non-negative inter-block friction bound
(`f1max = f1k ≥ 0`), both computed accelerations are non-negative; in
the slip branch the bottom block's numerator `F - f2k - f1k` is in
fact positive because the slip condition forces
`f1k < m1 * (F - f2k) / (m1 + m2) ≤ F - f2k`. -/
theorem blockAccels_nonneg (m1 m2 F f1k f2k : ℚ)
    (hm1 : 0 < m1) (hm2 : 0 < m2) (hf1k : 0 ≤ f1k) :
    0 ≤ (blockAccels m1 m2 F f1k f1k f2k).1 ∧
      0 ≤ (blockAccels m1 m2 F f1k f1k f2k).2 := by
  have h12 : 0 < m1 + m2 := by linarith
  simp only [blockAccels]
  split_ifs with hnet hns
  · have ha : 0 ≤ (F - f2k) / (m1 + m2) :=
      div_nonneg (by linarith) (le_of_lt h12)
    exact ⟨ha, ha⟩
  · refine ⟨div_nonneg hf1k (le_of_lt hm1), div_nonneg ?_ (le_of_lt hm2)⟩
    have hs : f1k * (m1 + m2) < m1 * (F - f2k) := by
      have hlt := not_le.mp hns
      calc f1k * (m1 + m2)
          < m1 * ((F - f2k) / (m1 + m2)) * (m1 + m2) :=
            mul_lt_mul_of_pos_right hlt h12
        _ = m1 * (F - f2k) := by field_simp
    nlinarith [mul_nonneg hf1k (le_of_lt hm2)]
  · exact ⟨le_refl 0, le_refl 0⟩

/-- Fields of the first sample a stacked-block loop emits, in terms
of the entry state. -/
theorem blockLoop_head_fields (m1 m2 F f1max f1k f2k dt maxTime : ℚ)
    (fuel : ℕ) (v1 v2 x1 x2 t : ℚ) (pt : GraphDataPoint)
    (h : (blockLoop m1 m2 F f1max f1k f2k dt maxTime fuel v1 v2 x1 x2 t).head? = some pt) :
    pt.velocityX = v1 + (blockAccels m1 m2 F f1max f1k f2k).1 * dt ∧
    pt.velocityY = v2 + (blockAccels m1 m2 F f1max f1k f2k).2 * dt ∧
    pt.positionX = x2 + (v2 + (blockAccels m1 m2 F f1max f1k f2k).2 * dt) * dt ∧
    pt.positionY + pt.positionX =
      x1 + (v1 + (blockAccels m1 m2 F f1max f1k f2k).1 * dt) * dt := by
  match fuel with
  | 0 => simp [blockLoop] at h
  | fuel + 1 =>
    rw [blockLoop] at h
    by_cases hg : t < maxTime
    · rw [if_pos hg] at h
      simp only [List.head?_cons, Option.some.injEq] at h
      subst h
      refine ⟨rfl, rfl, rfl, by ring⟩
    · rw [if_neg hg] at h; simp at h

/-- Along a stacked-block loop started with non-negative block
velocities and non-negative per-tick accelerations, consecutive
samples are ordered by `sampleLE`. -/
theorem blockLoop_chain (m1 m2 F f1max f1k f2k dt maxTime : ℚ)
    (ha1 : 0 ≤ (blockAccels m1 m2 F f1max f1k f2k).1)
    (ha2 : 0 ≤ (blockAccels m1 m2 F f1max f1k f2k).2)
    (hdt : 0 ≤ dt) :
    ∀ (fuel : ℕ) (v1 v2 x1 x2 t : ℚ), 0 ≤ v1 → 0 ≤ v2 →
      List.Chain' sampleLE (blockLoop m1 m2 F f1max f1k f2k dt maxTime fuel v1 v2 x1 x2 t) := by
  intro fuel
  induction fuel with
  | zero => intro v1 v2 x1 x2 t _ _; rw [blockLoop]; exact List.chain'_nil
  | succ fuel ih =>
    intro v1 v2 x1 x2 t hv1 hv2
    rw [blockLoop]
    by_cases hg : t < maxTime
    · rw [if_pos hg]
      have ha1dt : 0 ≤ (blockAccels m1 m2 F f1max f1k f2k).1 * dt :=
        mul_nonneg ha1 hdt
      have ha2dt : 0 ≤ (blockAccels m1 m2 F f1max f1k f2k).2 * dt :=
        mul_nonneg ha2 hdt
      rw [List.chain'_cons']
      constructor
      · intro b hb
        have hf := blockLoop_head_fields m1 m2 F f1max f1k f2k dt maxTime fuel
          _ _ _ _ _ b hb
        obtain ⟨hb1, hb2, hb3, hb4⟩ := hf
        have h3 : 0 ≤ (v2 + (blockAccels m1 m2 F f1max f1k f2k).2 * dt +
            (blockAccels m1 m2 F f1max f1k f2k).2 * dt) * dt :=
          mul_nonneg (by linarith) hdt
        have h4 : 0 ≤ (v1 + (blockAccels m1 m2 F f1max f1k f2k).1 * dt +
            (blockAccels m1 m2 F f1max f1k f2k).1 * dt) * dt :=
          mul_nonneg (by linarith) hdt
        refine ⟨?_, ?_, ?_, ?_⟩ <;> dsimp only
        · rw [hb1]; linarith
        · rw [hb2]; linarith
        · rw [hb3]; linarith
        · rw [hb4]; linarith
      · exact ih _ _ _ _ _ (by linarith) (by linarith)
    · rw [if_neg hg]; exact List.chain'_nil

/-- C10: in the block-on-block model (with positive masses and
non-negative inter-block friction, as in every physical scenario),
the acceleration assigned to each block is non-negative in every
branch on every tick — in the slip branch the slip condition forces
`F - f_ground - f1_k > 0` — and consequently both blocks' velocities
and positions are non-decreasing over the entire trajectory
(`velocityX`/`velocityY` are the two block velocities, `positionX`
the bottom block's absolute position and `positionY + positionX` the
top block's); kinetic friction never decelerates a moving block in
this model. -/
theorem generateBlockOnBlockData_monotone
    (O : JsMath) (params : SimulationParameters)
    (hm1 : 0 < jsOr params.mass 2)
    (hm2 : 0 < jsOr params.mass2 4)
    (hf1k : 0 ≤ jsOr params.frictionCoefficient 0.3 * jsOr params.mass 2 *
      jsOr params.gravity 9.8) :
    (∀ pt ∈ generateBlockOnBlockData O params,
        0 ≤ pt.accelerationX ∧ 0 ≤ pt.accelerationY) ∧
      List.Pairwise sampleLE (generateBlockOnBlockData O params) := by
  have hacc := blockAccels_nonneg (jsOr params.mass 2) (jsOr params.mass2 4)
    (jsOr params.appliedForce 20)
    (jsOr params.frictionCoefficient 0.3 * jsOr params.mass 2 * jsOr params.gravity 9.8)
    (jsOr params.frictionCoefficient2 0.1 *
      (jsOr params.mass 2 + jsOr params.mass2 4) * jsOr params.gravity 9.8)
    hm1 hm2 hf1k
  constructor
  · intro pt hmem
    rw [generateBlockOnBlockData] at hmem
    have hfields := blockLoop_accels _ _ _ _ _ _ _ _ _ _ _ _ _ _ pt hmem
    rw [hfields.1, hfields.2]
    exact hacc
  · have hchain := blockLoop_chain (jsOr params.mass 2) (jsOr params.mass2 4)
      (jsOr params.appliedForce 20)
      (jsOr params.frictionCoefficient 0.3 * jsOr params.mass 2 * jsOr params.gravity 9.8)
      (jsOr params.frictionCoefficient 0.3 * jsOr params.mass 2 * jsOr params.gravity 9.8)
      (jsOr params.frictionCoefficient2 0.1 *
        (jsOr params.mass 2 + jsOr params.mass2 4) * jsOr params.gravity 9.8)
      0.02 10 hacc.1 hacc.2 (by norm_num) 501 0 0 0 0 0 le_rfl le_rfl
    rw [generateBlockOnBlockData]
    exact List.chain'_iff_pairwise.mp hchain

/-- Witness for C10 at the default parameters (all keys omitted) and
the trivial oracle. -/
theorem generateBlockOnBlockData_monotone_witness :
    0 < jsOr ({} : SimulationParameters).mass 2 ∧
    0 < jsOr ({} : SimulationParameters).mass2 4 ∧
    (0 ≤ jsOr ({} : SimulationParameters).frictionCoefficient 0.3 *
        jsOr ({} : SimulationParameters).mass 2 *
        jsOr ({} : SimulationParameters).gravity 9.8) ∧
    ((∀ pt ∈ generateBlockOnBlockData zeroOracle {},
        0 ≤ pt.accelerationX ∧ 0 ≤ pt.accelerationY) ∧
      List.Pairwise sampleLE (generateBlockOnBlockData zeroOracle {})) :=
  ⟨by norm_num [jsOr], by norm_num [jsOr], by norm_num [jsOr],
    generateBlockOnBlockData_monotone zeroOracle {} (by norm_num [jsOr])
      (by norm_num [jsOr]) (by norm_num [jsOr])⟩

/-! ### Incline static lock (claim C3) -/

/-- One tick of the incline loop from a Locked state (zero velocity,
static friction dominating gravity-along-slope): it emits a
`lockedSample` and recurses with the state unchanged. -/
theorem incLoop_locked_step (O : JsMath) (g mass dt maxTime inclineLength muK muS
    gravityForce normalForce angleRad : ℚ) (fuel : ℕ) (s t : ℚ)
    (hlock : |gravityForce| ≤ muS * normalForce)
    (hg : t < maxTime ∧ 0 ≤ s ∧ s ≤ inclineLength + 0.5) :
    incLoop O g mass dt maxTime inclineLength muK muS gravityForce normalForce
        angleRad (fuel + 1) s 0 t =
      lockedSample O g mass angleRad s t ::
        incLoop O g mass dt maxTime inclineLength muK muS gravityForce normalForce
          angleRad fuel s 0 (t + dt) := by
  rw [incLoop, if_pos hg]
  norm_num [hlock, lockedSample]

/-- Running the incline loop from a Locked state with `n` remaining
ticks (`t = 10 - n * 0.02`) yields exactly `n` locked samples. -/
theorem incLoop_locked_run (O : JsMath) (g mass inclineLength muK muS
    gravityForce normalForce angleRad s : ℚ)
    (hlock : |gravityForce| ≤ muS * normalForce)
    (hs0 : 0 ≤ s) (hs1 : s ≤ inclineLength + 0.5) :
    ∀ (n fuel : ℕ), n ≤ fuel →
      incLoop O g mass 0.02 10 inclineLength muK muS gravityForce normalForce
          angleRad fuel s 0 (10 - (n : ℚ) * 0.02) =
        (List.range n).map
          (fun j : ℕ =>
            lockedSample O g mass angleRad s (10 - (n : ℚ) * 0.02 + (j : ℚ) * 0.02)) := by
  intro n
  induction n with
  | zero =>
    intro fuel _
    match fuel with
    | 0 => rw [incLoop]; rfl
    | fuel + 1 =>
      rw [incLoop, if_neg]
      · rfl
      · intro hcon
        have hlt := hcon.1
        norm_num at hlt
  | succ n ih =>
    intro fuel hfuel
    match fuel, hfuel with
    | fuel + 1, hfuel =>
      rw [incLoop_locked_step O g mass 0.02 10 inclineLength muK muS gravityForce
        normalForce angleRad fuel s _ hlock
        (by
          refine ⟨?_, hs0, hs1⟩
          have hn : (0 : ℚ) ≤ (n : ℚ) := Nat.cast_nonneg n
          push_cast
          nlinarith)]
      have hshift : (10 : ℚ) - ((n + 1 : ℕ) : ℚ) * 0.02 + 0.02 = 10 - (n : ℚ) * 0.02 := by
        push_cast; ring
      rw [hshift, ih fuel (Nat.succ_le_succ_iff.mp hfuel)]
      rw [List.range_succ_eq_map]
      simp only [List.map_cons, List.map_map]
      congr 1
      · congr 1
        push_cast; ring
      · apply List.map_congr_left
        intro j _
        simp only [Function.comp]
        congr 1
        push_cast; ring

/-- C3: with a 15° incline, kinetic friction coefficient 0.3 (derived
static coefficient 0.36) and zero initial velocity, the block remains
Locked for the full simulated duration: the trajectory has the full
500 samples (10 s at 0.02 s per step) and every sample's velocity is
zero.  The hypotheses only require the trigonometric oracle to be
accurate at 15° (sin 15° ≈ 0.2588 within [0.25, 0.27] and
cos 15° ≥ 0.96), from which the static-lock inequality
`9.8 sin 15° ≤ 0.36 · 9.8 cos 15°` (i.e. `tan 15° ≤ 0.36`) follows. -/
theorem generateInclineFrictionData_locked_at_15deg (O : JsMath)
    (hsl : 0.25 ≤ O.sin (15 * O.pi / 180))
    (hsu : O.sin (15 * O.pi / 180) ≤ 0.27)
    (hcl : 0.96 ≤ O.cos (15 * O.pi / 180)) :
    (generateInclineFrictionData O incline15Params).length = 500 ∧
      ∀ pt ∈ generateInclineFrictionData O incline15Params,
        pt.velocityX = 0 ∧ pt.velocityY = 0 := by
  have hlock : |(-(1 * 9.8 * O.sin (15 * O.pi / 180)))| ≤
      0.3 * 1.2 * (1 * 9.8 * O.cos (15 * O.pi / 180)) := by
    rw [abs_neg, abs_of_nonneg (by nlinarith)]
    nlinarith
  have hrun := incLoop_locked_run O 9.8 1 7.5 0.3 (0.3 * 1.2)
    (-(1 * 9.8 * O.sin (15 * O.pi / 180))) (1 * 9.8 * O.cos (15 * O.pi / 180))
    (15 * O.pi / 180) 7.5 hlock (by norm_num) (by norm_num) 500 501 (by norm_num)
  have h0 : (10 : ℚ) - ((500 : ℕ) : ℚ) * 0.02 = 0 := by norm_num
  rw [h0] at hrun
  have hgen : generateInclineFrictionData O incline15Params =
      (List.range 500).map
        (fun j : ℕ => lockedSample O 9.8 1 (15 * O.pi / 180) 7.5
          (0 + (j : ℚ) * 0.02)) := by
    rw [generateInclineFrictionData, ← hrun]
    norm_num [incline15Params, jsOr]
  rw [hgen]
  constructor
  · simp
  · intro pt hpt
    simp only [List.mem_map] at hpt
    obtain ⟨j, _, hj⟩ := hpt
    rw [← hj]
    exact ⟨rfl, rfl⟩

/-- Witness for C3: the concrete oracle `incline15Oracle` satisfies
the trig-accuracy hypotheses, and the theorem applies to it. -/
theorem generateInclineFrictionData_locked_at_15deg_witness :
    (0.25 ≤ incline15Oracle.sin (15 * incline15Oracle.pi / 180) ∧
      incline15Oracle.sin (15 * incline15Oracle.pi / 180) ≤ 0.27 ∧
      0.96 ≤ incline15Oracle.cos (15 * incline15Oracle.pi / 180)) ∧
    ((generateInclineFrictionData incline15Oracle incline15Params).length = 500 ∧
      ∀ pt ∈ generateInclineFrictionData incline15Oracle incline15Params,
        pt.velocityX = 0 ∧ pt.velocityY = 0) :=
  ⟨⟨by norm_num [incline15Oracle], by norm_num [incline15Oracle],
      by norm_num [incline15Oracle]⟩,
    generateInclineFrictionData_locked_at_15deg incline15Oracle
      (by norm_num [incline15Oracle]) (by norm_num [incline15Oracle])
      (by norm_num [incline15Oracle])⟩

/-! ### Termination of the kinematics loop (claim C5) -/

theorem kinLoop_mem_time_lt (O : JsMath) (g dt mass maxTime angleRad : ℚ) (isUA : Bool) :
    ∀ (fuel k : ℕ) (vx vy x y t : ℚ),
      ∀ pt ∈ kinLoop O g dt mass maxTime angleRad isUA fuel k vx vy x y t,
        pt.time < maxTime := by
  intro fuel
  induction fuel with
  | zero => intro k vx vy x y t pt h; simp [kinLoop] at h
  | succ fuel ih =>
    intro k vx vy x y t pt h
    rw [kinLoop] at h
    by_cases hg : t < maxTime ∧ -100 ≤ y
    · rw [if_pos hg] at h
      simp only [List.mem_cons] at h
      rcases h with h | h
      · subst h; exact hg.1
      · split at h
        · simp at h
        · exact ih _ _ _ _ _ _ pt h
    · rw [if_neg hg] at h; simp at h

/-- A kinematics loop with fuel left returns `[]` only when its guard
fails. -/
theorem kinLoop_nil_guard (O : JsMath) (g dt mass maxTime angleRad : ℚ) (isUA : Bool)
    (fuel k : ℕ) (vx vy x y t : ℚ)
    (h : kinLoop O g dt mass maxTime angleRad isUA (fuel + 1) k vx vy x y t = []) :
    ¬(t < maxTime ∧ -100 ≤ y) := by
  intro hg
  rw [kinLoop, if_pos hg] at h
  simp at h

/-- A sample of the kinematics loop that is followed by another
sample and was pushed with at least one sample already in the list
(`1 ≤ k + i`) sits on or above the floor: the loop breaks right after
pushing any below-floor sample once `data.length > 1`. -/
theorem kinLoop_nonfinal_y (O : JsMath) (g dt mass maxTime angleRad : ℚ) (isUA : Bool) :
    ∀ (fuel k : ℕ) (vx vy x y t : ℚ) (i : ℕ) (pt pt2 : GraphDataPoint),
      (kinLoop O g dt mass maxTime angleRad isUA fuel k vx vy x y t).get? i = some pt →
      (kinLoop O g dt mass maxTime angleRad isUA fuel k vx vy x y t).get? (i + 1) = some pt2 →
      1 ≤ k + i → 0 ≤ pt.positionY := by
  intro fuel
  induction fuel with
  | zero => intro k vx vy x y t i pt pt2 h _ _; simp [kinLoop] at h
  | succ fuel ih =>
    intro k vx vy x y t i pt pt2 h h2 hk
    rw [kinLoop] at h h2
    by_cases hg : t < maxTime ∧ -100 ≤ y
    · rw [if_pos hg] at h h2
      match i, hk with
      | 0, hk =>
        simp only [List.get?_cons_zero, Option.some.injEq] at h
        simp only [List.get?_cons_succ] at h2
        subst h
        split at h2
        · simp at h2
        · next hbrk =>
            dsimp only
            by_contra hneg
            push_neg at hneg
            exact hbrk ⟨hneg, by omega⟩
      | i + 1, hk =>
        simp only [List.get?_cons_succ] at h h2
        split at h
        · simp at h
        · next hbrk =>
            rw [if_neg hbrk] at h2
            exact ih _ _ _ _ _ _ i pt pt2 h h2 (by omega)
    · rw [if_neg hg] at h; simp at h

/-- Splitting the last element of a cons list. -/
theorem getLast?_cons_cases (a : GraphDataPoint) (l : List GraphDataPoint)
    (pt : GraphDataPoint) (h : (a :: l).getLast? = some pt) :
    (l = [] ∧ pt = a) ∨ (l ≠ [] ∧ l.getLast? = some pt) := by
  match l with
  | [] =>
    left
    refine ⟨rfl, ?_⟩
    simp only [List.getLast?_singleton, Option.some.injEq] at h
    exact h.symm
  | b :: m =>
    right
    refine ⟨by simp, ?_⟩
    rwa [List.getLast?_cons_cons] at h

/-- If the kinematics loop run from the time grid (`t = k * 0.02`,
`maxTime = 10`, `dt = 0.02`) with enough fuel stops before filling
the 500-step grid, its last sample is strictly below the floor. -/
theorem kinLoop_early_stop (O : JsMath) (g mass angleRad : ℚ) (isUA : Bool) :
    ∀ (fuel k : ℕ) (vx vy x y t : ℚ),
      t = (k : ℚ) * 0.02 →
      500 ≤ k + fuel →
      (kinLoop O g 0.02 mass 10 angleRad isUA fuel k vx vy x y t).length + k < 500 →
      ∀ pt, (kinLoop O g 0.02 mass 10 angleRad isUA fuel k vx vy x y t).getLast? =
          some pt →
        pt.positionY < 0 := by
  intro fuel
  induction fuel with
  | zero =>
    intro k vx vy x y t ht hfuel hlen pt hlast
    rw [kinLoop] at hlast
    simp at hlast
  | succ fuel ih =>
    intro k vx vy x y t ht hfuel hlen pt hlast
    rw [kinLoop] at hlen hlast
    by_cases hg : t < 10 ∧ -100 ≤ y
    · rw [if_pos hg] at hlen hlast
      simp only [List.length_cons] at hlen
      rcases getLast?_cons_cases _ _ _ hlast with ⟨hnil, hpt⟩ | ⟨hne, hlast2⟩
      · subst hpt
        split at hnil
        · next hbrk =>
            dsimp only
            exact hbrk.1
        · next hbrk =>
            rw [if_neg hbrk, hnil] at hlen
            simp only [List.length_nil] at hlen
            match fuel, hfuel with
            | 0, hfuel => omega
            | fuel + 1, hfuel =>
              have hguard := kinLoop_nil_guard O g 0.02 mass 10 angleRad isUA
                fuel (k + 1) _ _ _ _ _ hnil
              push_neg at hguard
              rcases lt_or_le (t + 0.02) 10 with hta | hta
              · have hy2 := hguard hta
                dsimp only
                linarith
              · have hk499 : (499 : ℚ) ≤ (k : ℚ) := by rw [ht] at hta; linarith
                have hk499n : (499 : ℕ) ≤ k := by exact_mod_cast hk499
                omega
      · split at hlast2
        · next => simp at hlast2
        · next hbrk =>
            rw [if_neg hbrk] at hlen
            exact ih (k + 1) _ _ _ _ (t + 0.02) (by rw [ht]; push_cast; ring)
              (by omega) (by omega) pt hlast2
    · rw [if_neg hg] at hlast
      simp at hlast

theorem generateKinematicsData_get?_time (O : JsMath) (params : SimulationParameters)
    (i : ℕ) (pt : GraphDataPoint)
    (h : (generateKinematicsData O params).get? i = some pt) :
    pt.time = i * 0.02 := by
  rw [generateKinematicsData] at h
  simpa using kinLoop_get?_time _ _ _ _ _ _ _ _ _ _ _ _ _ _ _ _ h

theorem generateKinematicsData_time_lt (O : JsMath) (params : SimulationParameters)
    (pt : GraphDataPoint) (h : pt ∈ generateKinematicsData O params) :
    pt.time < 10 := by
  rw [generateKinematicsData] at h
  exact kinLoop_mem_time_lt _ _ _ _ _ _ _ _ _ _ _ _ _ _ pt h

/-- The kinematics generator emits at most 500 samples: every sample
is pushed under the guard `t < 10` and times lie on the exact grid
`i * 0.02`. -/
theorem generateKinematicsData_length_le (O : JsMath) (params : SimulationParameters) :
    (generateKinematicsData O params).length ≤ 500 := by
  by_contra hlen
  push_neg at hlen
  have hget : (generateKinematicsData O params).get? 500 =
      some ((generateKinematicsData O params).get ⟨500, hlen⟩) :=
    List.get?_eq_get hlen
  have h1 := generateKinematicsData_get?_time O params 500 _ hget
  have h2 := generateKinematicsData_time_lt O params _ (List.get?_mem hget)
  rw [h1] at h2
  norm_num at h2

/-- C5: every projectile-family generation halts.  The loop (a) never
emits more than 500 samples, the fixed 10 s maximum at the 0.02 s
step; (b) is truncated at the first sample whose `positionY` has
crossed below the floor after at least one step: any sample followed
by another one and of index ≥ 1 is on or above the floor; and (c)
stops before the 10 s cap only by crossing the floor: if fewer than
500 samples come out, the last one is strictly below the floor. -/
theorem generateKinematicsData_termination (O : JsMath) (params : SimulationParameters) :
    (generateKinematicsData O params).length ≤ 500 ∧
    (∀ (i : ℕ) (pt pt2 : GraphDataPoint),
      (generateKinematicsData O params).get? i = some pt →
      (generateKinematicsData O params).get? (i + 1) = some pt2 →
      1 ≤ i → 0 ≤ pt.positionY) ∧
    ((generateKinematicsData O params).length < 500 →
      ∀ pt, (generateKinematicsData O params).getLast? = some pt →
        pt.positionY < 0) := by
  refine ⟨generateKinematicsData_length_le O params, ?_, ?_⟩
  · intro i pt pt2 h h2 hi
    rw [generateKinematicsData] at h h2
    exact kinLoop_nonfinal_y _ _ _ _ _ _ _ _ _ _ _ _ _ _ i pt pt2 h h2 (by omega)
  · intro hlen pt hlast
    rw [generateKinematicsData] at hlen hlast
    exact kinLoop_early_stop O _ _ _ _ 501 0 _ _ _ _ 0 (by norm_num) (by omega)
      (by simpa using hlen) pt hlast

/-- Witness for C5 on the concrete scenario `wParams` with the
trivial oracle: the run has 3 < 500 samples, its index-1 sample is
followed by another and lies above the floor, and its last sample
lies below the floor. -/
theorem generateKinematicsData_termination_witness :
    (generateKinematicsData zeroOracle wParams).get? 1 = some wSample1 ∧
    (generateKinematicsData zeroOracle wParams).get? 2 = some wSample2 ∧
    (1 : ℕ) ≤ 1 ∧
    (generateKinematicsData zeroOracle wParams).length < 500 ∧
    (generateKinematicsData zeroOracle wParams).getLast? = some wSample2 ∧
    0 ≤ wSample1.positionY ∧ wSample2.positionY < 0 :=
  ⟨by with_unfolding_all rfl, by with_unfolding_all rfl, le_refl 1,
    by
      have h3 : (generateKinematicsData zeroOracle wParams).length = 3 := by
        with_unfolding_all rfl
      omega,
    by with_unfolding_all rfl,
    (generateKinematicsData_termination zeroOracle wParams).2.1 1 wSample1 wSample2
      (by with_unfolding_all rfl) (by with_unfolding_all rfl) (le_refl 1),
    (generateKinematicsData_termination zeroOracle wParams).2.2
      (by
        have h3 : (generateKinematicsData zeroOracle wParams).length = 3 := by
          with_unfolding_all rfl
        omega)
      wSample2 (by with_unfolding_all rfl)⟩

/-! ### Parameter defaults (claim C4)

The claim asserts uniform defaults: gravity 9.8, mass 1, friction 0.
Gravity is indeed 9.8 everywhere, but mass and friction defaults are
model-specific and nonzero, which the counterexample below exhibits
on the horizontal-friction model. -/

/-- Counterexample to C4 as stated: in the horizontal-friction model
the omitted mass does not behave like mass = 1 kg (it defaults to
2.5 kg): the trajectories differ already in the first sample's
acceleration, (15 − 0.4·2.5·9.8)/2.5 = 2.08 versus
(15 − 0.4·1·9.8)/1 = 11.08.  (Were the claimed defaults mass 1 and
friction 0 real, the acceleration would be 15.) -/
theorem frictionHorizontal_mass_default_not_one :
    generateFrictionHorizontalData zeroOracle {} ≠
      generateFrictionHorizontalData zeroOracle { mass := some 1 } := by
  intro h
  have h1 : ((generateFrictionHorizontalData zeroOracle
      ({} : SimulationParameters)).head?.map GraphDataPoint.accelerationX) =
      some (52/25) := by
    with_unfolding_all rfl
  have h2 : ((generateFrictionHorizontalData zeroOracle
      ({ mass := some 1 } : SimulationParameters)).head?.map
        GraphDataPoint.accelerationX) = some (277/25) := by
    with_unfolding_all rfl
  rw [h] at h1
  rw [h1] at h2
  simp only [Option.some.injEq] at h2
  norm_num at h2

/-- C4 (amended): omitting a parameter behaves exactly like passing
the model's actual built-in default explicitly — gravity 9.8 in all
seven models, mass 1 in the kinematics, pendulum, conical-pendulum
and incline models but 2.5 in horizontal friction and 2 in the pulley
and stacked-block models, and nonzero friction defaults (0.3 incline,
0.5/0.4 horizontal static/kinetic, 0.2 pulley, 0.3/0.1 stacked
block); no missing parameter is an error (the generators are total
functions of the optional parameter record). -/
theorem engine_defaults_amended (O : JsMath) (p : SimulationParameters)
    (hg : p.gravity = none) (hm : p.mass = none)
    (hfc : p.frictionCoefficient = none) (hfc2 : p.frictionCoefficient2 = none)
    (hsf : p.staticFriction = none) (hkf : p.kineticFriction = none) :
    (generateKinematicsData O p =
        generateKinematicsData O { p with gravity := some 9.8 } ∧
      generatePendulumData O p =
        generatePendulumData O { p with gravity := some 9.8 } ∧
      generateConicalPendulumData O p =
        generateConicalPendulumData O { p with gravity := some 9.8 } ∧
      generateInclineFrictionData O p =
        generateInclineFrictionData O { p with gravity := some 9.8 } ∧
      generateFrictionHorizontalData O p =
        generateFrictionHorizontalData O { p with gravity := some 9.8 } ∧
      generateInclinePulleyData O p =
        generateInclinePulleyData O { p with gravity := some 9.8 } ∧
      generateBlockOnBlockData O p =
        generateBlockOnBlockData O { p with gravity := some 9.8 }) ∧
    (generateKinematicsData O p =
        generateKinematicsData O { p with mass := some 1 } ∧
      generatePendulumData O p =
        generatePendulumData O { p with mass := some 1 } ∧
      generateConicalPendulumData O p =
        generateConicalPendulumData O { p with mass := some 1 } ∧
      generateInclineFrictionData O p =
        generateInclineFrictionData O { p with mass := some 1 } ∧
      generateFrictionHorizontalData O p =
        generateFrictionHorizontalData O { p with mass := some 2.5 } ∧
      generateInclinePulleyData O p =
        generateInclinePulleyData O { p with mass := some 2 } ∧
      generateBlockOnBlockData O p =
        generateBlockOnBlockData O { p with mass := some 2 }) ∧
    (generateInclineFrictionData O p =
        generateInclineFrictionData O { p with frictionCoefficient := some 0.3 } ∧
      generateInclinePulleyData O p =
        generateInclinePulleyData O { p with frictionCoefficient := some 0.2 } ∧
      generateBlockOnBlockData O p =
        generateBlockOnBlockData O { p with frictionCoefficient := some 0.3 } ∧
      generateBlockOnBlockData O p =
        generateBlockOnBlockData O { p with frictionCoefficient2 := some 0.1 } ∧
      generateFrictionHorizontalData O p =
        generateFrictionHorizontalData O { p with staticFriction := some 0.5 } ∧
      generateFrictionHorizontalData O p =
        generateFrictionHorizontalData O { p with kineticFriction := some 0.4 }) := by
  refine ⟨⟨?_, ?_, ?_, ?_, ?_, ?_, ?_⟩, ⟨?_, ?_, ?_, ?_, ?_, ?_, ?_⟩,
    ⟨?_, ?_, ?_, ?_, ?_, ?_⟩⟩ <;>
    norm_num [generateKinematicsData, generatePendulumData,
      generateConicalPendulumData, generateInclineFrictionData,
      generateFrictionHorizontalData, generateInclinePulleyData,
      generateBlockOnBlockData, jsOr, hg, hm, hfc, hfc2, hsf, hkf]

/-- Witness for the amended C4 at the empty parameter record and the
trivial oracle. -/
theorem engine_defaults_amended_witness :
    (({} : SimulationParameters).gravity = none ∧
      ({} : SimulationParameters).mass = none ∧
      ({} : SimulationParameters).frictionCoefficient = none ∧
      ({} : SimulationParameters).frictionCoefficient2 = none ∧
      ({} : SimulationParameters).staticFriction = none ∧
      ({} : SimulationParameters).kineticFriction = none) ∧
    generateKinematicsData zeroOracle {} =
      generateKinematicsData zeroOracle { gravity := some 9.8 } ∧
    generateFrictionHorizontalData zeroOracle {} =
      generateFrictionHorizontalData zeroOracle { mass := some 2.5 } ∧
    generateBlockOnBlockData zeroOracle {} =
      generateBlockOnBlockData zeroOracle { frictionCoefficient := some 0.3 } :=
  ⟨⟨rfl, rfl, rfl, rfl, rfl, rfl⟩,
    (engine_defaults_amended zeroOracle {} rfl rfl rfl rfl rfl rfl).1.1,
    (engine_defaults_amended zeroOracle {} rfl rfl rfl rfl rfl rfl).2.1.2.2.2.2.1,
    (engine_defaults_amended zeroOracle {} rfl rfl rfl rfl rfl rfl).2.2.2.2.1⟩

/-! ### Explicit zero versus omitted parameter (claim C9)

Inside each generator every listed parameter is read through the
falsy `||` idiom, so `0` behaves like the default there.  But
`getSimulationType` tests the *presence* of `mass2`, `length` and
`appliedForce`, so at the public interface passing `0` for those can
select a different model than omitting them. -/

/-- Counterexample to C9 as stated: passing `appliedForce = 0`
explicitly does not produce the same trajectory as omitting it — it
selects the horizontal-friction model (with default force 15), while
omitting it selects the projectile model; the first samples differ in
`accelerationY` (0 versus −9.8). -/
theorem zero_appliedForce_differs_from_omitted :
    generateSimulationData zeroOracle ballProblem zeroForceParams ≠
      generateSimulationData zeroOracle ballProblem noForceParams := by
  intro h
  have h1 : ((generateSimulationData zeroOracle ballProblem
      zeroForceParams).head?.map GraphDataPoint.accelerationY) = some 0 := by
    with_unfolding_all rfl
  have h2 : ((generateSimulationData zeroOracle ballProblem
      noForceParams).head?.map GraphDataPoint.accelerationY) = some (-49/5) := by
    with_unfolding_all rfl
  rw [h] at h1
  rw [h1] at h2
  simp only [Option.some.injEq] at h2
  norm_num at h2

/-- C9 (amended): for the parameters whose presence the classifier
never tests — gravity, mass, initialAngle, frictionCoefficient,
frictionCoefficient2, staticFriction and kineticFriction — passing
the explicit value 0 produces exactly the same trajectory through the
public interface as omitting the parameter (0 is falsy, so the
built-in default is substituted: e.g. frictionCoefficient 0 behaves
as 0.3 in the incline model and 0.2 in the pulley model, and a caller
cannot request a frictionless incline or zero gravity).  For `mass2`,
`length` and `appliedForce` the same substitution holds inside each
model generator, but not through `generateSimulationData`, where
their presence selects the model. -/
theorem zero_equals_omitted_amended (O : JsMath) (problem : PhysicsProblem)
    (p : SimulationParameters) :
    (generateSimulationData O problem { p with gravity := some 0 } =
        generateSimulationData O problem { p with gravity := none } ∧
      generateSimulationData O problem { p with mass := some 0 } =
        generateSimulationData O problem { p with mass := none } ∧
      generateSimulationData O problem { p with initialAngle := some 0 } =
        generateSimulationData O problem { p with initialAngle := none } ∧
      generateSimulationData O problem { p with frictionCoefficient := some 0 } =
        generateSimulationData O problem { p with frictionCoefficient := none } ∧
      generateSimulationData O problem { p with frictionCoefficient2 := some 0 } =
        generateSimulationData O problem { p with frictionCoefficient2 := none } ∧
      generateSimulationData O problem { p with staticFriction := some 0 } =
        generateSimulationData O problem { p with staticFriction := none } ∧
      generateSimulationData O problem { p with kineticFriction := some 0 } =
        generateSimulationData O problem { p with kineticFriction := none }) ∧
    (generateInclinePulleyData O { p with mass2 := some 0 } =
        generateInclinePulleyData O { p with mass2 := none } ∧
      generateBlockOnBlockData O { p with mass2 := some 0 } =
        generateBlockOnBlockData O { p with mass2 := none } ∧
      generatePendulumData O { p with length := some 0 } =
        generatePendulumData O { p with length := none } ∧
      generateConicalPendulumData O { p with length := some 0 } =
        generateConicalPendulumData O { p with length := none } ∧
      generateFrictionHorizontalData O { p with appliedForce := some 0 } =
        generateFrictionHorizontalData O { p with appliedForce := none } ∧
      generateBlockOnBlockData O { p with appliedForce := some 0 } =
        generateBlockOnBlockData O { p with appliedForce := none }) := by
  constructor
  · refine ⟨?_, ?_, ?_, ?_, ?_, ?_, ?_⟩
    case _ =>
      have hc : getSimulationType problem { p with gravity := some 0 } =
          getSimulationType problem { p with gravity := none } := rfl
      cases h : getSimulationType problem { p with gravity := none } <;>
        simp only [generateSimulationData, hc, h] <;>
        norm_num [generateKinematicsData, generatePendulumData,
          generateConicalPendulumData, generateInclineFrictionData,
          generateFrictionHorizontalData, generateInclinePulleyData,
          generateBlockOnBlockData, jsOr]
    case _ =>
      have hc : getSimulationType problem { p with mass := some 0 } =
          getSimulationType problem { p with mass := none } := rfl
      cases h : getSimulationType problem { p with mass := none } <;>
        simp only [generateSimulationData, hc, h] <;>
        norm_num [generateKinematicsData, generatePendulumData,
          generateConicalPendulumData, generateInclineFrictionData,
          generateFrictionHorizontalData, generateInclinePulleyData,
          generateBlockOnBlockData, jsOr]
    case _ =>
      have hc : getSimulationType problem { p with initialAngle := some 0 } =
          getSimulationType problem { p with initialAngle := none } := rfl
      cases h : getSimulationType problem { p with initialAngle := none } <;>
        simp only [generateSimulationData, hc, h] <;>
        norm_num [generateKinematicsData, generatePendulumData,
          generateConicalPendulumData, generateInclineFrictionData,
          generateFrictionHorizontalData, generateInclinePulleyData,
          generateBlockOnBlockData, jsOr]
    case _ =>
      have hc : getSimulationType problem { p with frictionCoefficient := some 0 } =
          getSimulationType problem { p with frictionCoefficient := none } := rfl
      cases h : getSimulationType problem { p with frictionCoefficient := none } <;>
        simp only [generateSimulationData, hc, h] <;>
        norm_num [generateKinematicsData, generatePendulumData,
          generateConicalPendulumData, generateInclineFrictionData,
          generateFrictionHorizontalData, generateInclinePulleyData,
          generateBlockOnBlockData, jsOr]
    case _ =>
      have hc : getSimulationType problem { p with frictionCoefficient2 := some 0 } =
          getSimulationType problem { p with frictionCoefficient2 := none } := rfl
      cases h : getSimulationType problem { p with frictionCoefficient2 := none } <;>
        simp only [generateSimulationData, hc, h] <;>
        norm_num [generateKinematicsData, generatePendulumData,
          generateConicalPendulumData, generateInclineFrictionData,
          generateFrictionHorizontalData, generateInclinePulleyData,
          generateBlockOnBlockData, jsOr]
    case _ =>
      have hc : getSimulationType problem { p with staticFriction := some 0 } =
          getSimulationType problem { p with staticFriction := none } := rfl
      cases h : getSimulationType problem { p with staticFriction := none } <;>
        simp only [generateSimulationData, hc, h] <;>
        norm_num [generateKinematicsData, generatePendulumData,
          generateConicalPendulumData, generateInclineFrictionData,
          generateFrictionHorizontalData, generateInclinePulleyData,
          generateBlockOnBlockData, jsOr]
    case _ =>
      have hc : getSimulationType problem { p with kineticFriction := some 0 } =
          getSimulationType problem { p with kineticFriction := none } := rfl
      cases h : getSimulationType problem { p with kineticFriction := none } <;>
        simp only [generateSimulationData, hc, h] <;>
        norm_num [generateKinematicsData, generatePendulumData,
          generateConicalPendulumData, generateInclineFrictionData,
          generateFrictionHorizontalData, generateInclinePulleyData,
          generateBlockOnBlockData, jsOr]
  · refine ⟨?_, ?_, ?_, ?_, ?_, ?_⟩ <;>
      norm_num [generatePendulumData, generateConicalPendulumData,
        generateFrictionHorizontalData, generateInclinePulleyData,
        generateBlockOnBlockData, jsOr]

end PhysicsVisualiser
